import Mathlib

/-!
# Verification of the EEVEE screen-space effects pipeline

Shallow embedding of `source/blender/draw/engines/eevee/eevee_effects.c`
(Blender 2.8 branch): the effect-configuration resolver (`EEVEE_effects_init`),
the execution scheduler (`EEVEE_draw_effects` with its `SWAP_BUFFERS` /
`SWAP_DOUBLE_BUFFERS` macros), the SSR execution (`EEVEE_effects_do_ssr`),
the SSR resolve-pass bindings (`EEVEE_effects_cache_init`) and the Hi-Z
pyramid construction (`EEVEE_create_minmax_buffer`).

GPU buffers are modelled by abstract identifiers (natural numbers); machine
floats are idealized as rationals/reals where arithmetic matters.
-/

namespace EEVEE

/-- The set of enabled effects for a frame.  In the C code this is the
bitmask `effects->enabled_effects` built from `EFFECT_MOTION_BLUR`,
`EFFECT_BLOOM`, `EFFECT_DOF`, `EFFECT_VOLUMETRIC`, `EFFECT_SSR` and
`EFFECT_DOUBLE_BUFFER`; each bit is modelled by one Boolean field. -/
structure EnabledEffects where
  motionBlur : Bool
  bloom : Bool
  dof : Bool
  volumetric : Bool
  ssr : Bool
  doubleBuffer : Bool
  deriving DecidableEq, Repr

/-- Abstract identity of a GPU texture or framebuffer (pointer identity). -/
abbrev Buf := Nat

/-- The mutable state manipulated by `EEVEE_draw_effects`.
`main`/`double_buffer` are `fbl->main`/`fbl->double_buffer`;
`color`/`color_double_buffer` are `txl->color`/`txl->color_double_buffer`;
`effect_fb` and `color_post` are the ping-pong framebuffer/texture
(never reassigned by the swap macros); `source_buffer`/`target_buffer`
are `effects->source_buffer`/`effects->target_buffer`;
`swap_double_buffer` is the frame-scoped local flag of `EEVEE_draw_effects`;
`exchanges` counts how many times the main/double-buffer identity
exchange has been performed (instrumentation, no C counterpart). -/
structure DrawState where
  main : Buf
  double_buffer : Buf
  color : Buf
  color_double_buffer : Buf
  effect_fb : Buf
  color_post : Buf
  source_buffer : Buf
  target_buffer : Buf
  swap_double_buffer : Bool
  exchanges : Nat
  deriving DecidableEq, Repr

/-- `SWAP_DOUBLE_BUFFERS()` macro: if the frame-scoped flag is set,
swap `fbl->main` with `fbl->double_buffer` and `txl->color` with
`txl->color_double_buffer`, then clear the flag. -/
def SWAP_DOUBLE_BUFFERS (s : DrawState) : DrawState :=
  if s.swap_double_buffer then
    { s with
      main := s.double_buffer
      double_buffer := s.main
      color := s.color_double_buffer
      color_double_buffer := s.color
      swap_double_buffer := false
      exchanges := s.exchanges + 1 }
  else s

/-- `SWAP_BUFFERS()` macro: the `source_buffer == txl->color` test is
evaluated before `SWAP_DOUBLE_BUFFERS()` runs, but the new
`source_buffer`/`target_buffer` read the (possibly swapped) lists. -/
def SWAP_BUFFERS (s : DrawState) : DrawState :=
  if s.source_buffer = s.color then
    let s' := SWAP_DOUBLE_BUFFERS s
    { s' with source_buffer := s'.color_post, target_buffer := s'.main }
  else
    let s' := SWAP_DOUBLE_BUFFERS s
    { s' with source_buffer := s'.color, target_buffer := s'.effect_fb }

/-- `EEVEE_draw_effects`: initialize `source_buffer := txl->color`,
`target_buffer := fbl->effect_fb` and the frame-scoped
`swap_double_buffer` flag; run the motion-blur, depth-of-field and bloom
blocks (each ending in `SWAP_BUFFERS()` when its effect is enabled);
tonemap `effects->source_buffer` (returned as the second component);
finally run the unconditional `SWAP_DOUBLE_BUFFERS()`. -/
def EEVEE_draw_effects (enabled : EnabledEffects) (s0 : DrawState) :
    DrawState × Buf :=
  let s := { s0 with
    source_buffer := s0.color
    target_buffer := s0.effect_fb
    swap_double_buffer := enabled.doubleBuffer
    exchanges := 0 }
  let s := if enabled.motionBlur then SWAP_BUFFERS s else s
  let s := if enabled.dof then SWAP_BUFFERS s else s
  let s := if enabled.bloom then SWAP_BUFFERS s else s
  let tonemapped := s.source_buffer
  (SWAP_DOUBLE_BUFFERS s, tonemapped)

lemma SWAP_DOUBLE_BUFFERS_flag (s : DrawState) :
    (SWAP_DOUBLE_BUFFERS s).swap_double_buffer = false := by
  unfold SWAP_DOUBLE_BUFFERS
  split <;> simp_all

lemma SWAP_DOUBLE_BUFFERS_exchanges (s : DrawState) :
    (SWAP_DOUBLE_BUFFERS s).exchanges =
      s.exchanges + (if s.swap_double_buffer then 1 else 0) := by
  unfold SWAP_DOUBLE_BUFFERS
  split <;> simp_all

lemma SWAP_BUFFERS_flag (s : DrawState) :
    (SWAP_BUFFERS s).swap_double_buffer = false := by
  unfold SWAP_BUFFERS
  split <;> simp [SWAP_DOUBLE_BUFFERS_flag]

lemma SWAP_BUFFERS_exchanges (s : DrawState) :
    (SWAP_BUFFERS s).exchanges =
      s.exchanges + (if s.swap_double_buffer then 1 else 0) := by
  unfold SWAP_BUFFERS
  split <;> simp [SWAP_DOUBLE_BUFFERS_exchanges]

lemma SWAP_BUFFERS_source_of_not_enabled (s : DrawState) :
    (SWAP_DOUBLE_BUFFERS s).source_buffer = s.source_buffer := by
  unfold SWAP_DOUBLE_BUFFERS
  split <;> simp_all

/-- C1: In `EEVEE_draw_effects`, the main/double-buffer identity exchange
is performed exactly once per frame whenever `EFFECT_DOUBLE_BUFFER` is set
(and never otherwise), for every combination of enabled post-effects
(K = 0, 1, 2 or 3 invocations of `SWAP_BUFFERS` before the unconditional
final `SWAP_DOUBLE_BUFFERS`): the first swap performs the exchange and
clears the frame-scoped flag, so it is never performed twice. -/
theorem draw_effects_exchanges_once (enabled : EnabledEffects)
    (s0 : DrawState) :
    (EEVEE_draw_effects enabled s0).1.exchanges =
      (if enabled.doubleBuffer then 1 else 0) := by
  unfold EEVEE_draw_effects
  cases hmb : enabled.motionBlur <;> cases hdf : enabled.dof <;>
    cases hbl : enabled.bloom <;>
    simp [SWAP_BUFFERS_exchanges, SWAP_BUFFERS_flag,
      SWAP_DOUBLE_BUFFERS_exchanges, SWAP_DOUBLE_BUFFERS_flag]

/-- C4: If no motion blur, depth-of-field or bloom is enabled,
`EEVEE_draw_effects` is a pass-through: `effects->source_buffer` keeps
its initial value `txl->color` through the whole frame, and that same
texture is the one handed to `DRW_transform_to_display` (second
component of the result). -/
theorem draw_effects_passthrough (enabled : EnabledEffects)
    (s0 : DrawState)
    (hmb : enabled.motionBlur = false)
    (hdf : enabled.dof = false)
    (hbl : enabled.bloom = false) :
    (EEVEE_draw_effects enabled s0).2 = s0.color ∧
    (EEVEE_draw_effects enabled s0).1.source_buffer = s0.color := by
  unfold EEVEE_draw_effects
  simp [hmb, hdf, hbl, SWAP_BUFFERS_source_of_not_enabled]

/-- Witness for C4 at a concrete state: all three post-effects disabled
(only SSR/double-buffer active), with distinct buffer identities. -/
theorem draw_effects_passthrough_witness :
    (EEVEE_draw_effects
        ⟨false, false, false, false, true, true⟩
        ⟨0, 1, 2, 3, 4, 5, 9, 9, false, 0⟩).2 = 2 ∧
    (EEVEE_draw_effects
        ⟨false, false, false, false, true, true⟩
        ⟨0, 1, 2, 3, 4, 5, 9, 9, false, 0⟩).1.source_buffer = 2 :=
  draw_effects_passthrough
    ⟨false, false, false, false, true, true⟩
    ⟨0, 1, 2, 3, 4, 5, 9, 9, false, 0⟩ rfl rfl rfl

/-! ## SSR execution (`EEVEE_effects_do_ssr`) -/

/-- One observable action of `EEVEE_effects_do_ssr`. -/
inductive SSRStep where
  | attachHit (i : Nat)
  | bindTracingFb
  | drawRaytrace
  | clearHit (c : ℚ × ℚ × ℚ × ℚ)
  | detachHit (i : Nat)
  | downsampleDoubleBuffer
  | detachAux
  | bindMain
  | drawResolve
  | restoreAux
  deriving DecidableEq, Repr

/-- `EEVEE_effects_do_ssr`: when SSR is enabled, attach the `ray_count`
hit-output textures and bind the tracing framebuffer; if the color-history
double buffer is valid draw the raytrace pass, otherwise clear to the
sentinel `(0, 0, -1, 0.001)`; detach the hit outputs, downsample the color
history, then bind the main framebuffer and draw the resolve pass. -/
def EEVEE_effects_do_ssr (ssrEnabled : Bool) (ray_count : Nat)
    (valid_double_buffer : Bool) : List SSRStep :=
  if ssrEnabled then
    ((List.range ray_count).map SSRStep.attachHit) ++ [SSRStep.bindTracingFb] ++
    (if valid_double_buffer then [SSRStep.drawRaytrace]
     else [SSRStep.clearHit (0, 0, -1, 1/1000)]) ++
    ((List.range ray_count).map SSRStep.detachHit) ++
    [SSRStep.downsampleDoubleBuffer, SSRStep.detachAux, SSRStep.bindMain,
     SSRStep.drawResolve, SSRStep.restoreAux]
  else []

/-- C3: In `EEVEE_effects_do_ssr` with SSR enabled, the hit buffers are
cleared to the sentinel `(0, 0, -1, 0.001)` if and only if the color
history is not valid; when it is valid the raytrace pass is drawn instead;
and in both cases the resolve pass is drawn afterwards (the trace ends
with the resolve followed only by the restore step). -/
theorem do_ssr_sentinel_iff_invalid_history (ray_count : Nat)
    (valid_double_buffer : Bool) :
    (SSRStep.clearHit (0, 0, -1, 1/1000) ∈
        EEVEE_effects_do_ssr true ray_count valid_double_buffer ↔
      valid_double_buffer = false) ∧
    (SSRStep.drawRaytrace ∈
        EEVEE_effects_do_ssr true ray_count valid_double_buffer ↔
      valid_double_buffer = true) ∧
    (∃ t1, EEVEE_effects_do_ssr true ray_count valid_double_buffer =
        t1 ++ [SSRStep.drawResolve, SSRStep.restoreAux] ∧
      (if valid_double_buffer then SSRStep.drawRaytrace
       else SSRStep.clearHit (0, 0, -1, 1/1000)) ∈ t1) := by
  unfold EEVEE_effects_do_ssr
  cases valid_double_buffer <;>
    refine ⟨by simp [List.mem_map], by simp [List.mem_map], ?_⟩
  · exact ⟨(List.range ray_count).map SSRStep.attachHit ++
      [SSRStep.bindTracingFb] ++ [SSRStep.clearHit (0, 0, -1, 1/1000)] ++
      (List.range ray_count).map SSRStep.detachHit ++
      [SSRStep.downsampleDoubleBuffer, SSRStep.detachAux, SSRStep.bindMain],
      by simp, by simp⟩
  · exact ⟨(List.range ray_count).map SSRStep.attachHit ++
      [SSRStep.bindTracingFb] ++ [SSRStep.drawRaytrace] ++
      (List.range ray_count).map SSRStep.detachHit ++
      [SSRStep.downsampleDoubleBuffer, SSRStep.detachAux, SSRStep.bindMain],
      by simp, by simp⟩

/-- Witness for C3 at ray_count = 2, invalid history. -/
theorem do_ssr_sentinel_iff_invalid_history_witness :
    (SSRStep.clearHit (0, 0, -1, 1/1000) ∈
        EEVEE_effects_do_ssr true 2 false ↔ (false : Bool) = false) ∧
    (SSRStep.drawRaytrace ∈ EEVEE_effects_do_ssr true 2 false ↔
      (false : Bool) = true) ∧
    (∃ t1, EEVEE_effects_do_ssr true 2 false =
        t1 ++ [SSRStep.drawResolve, SSRStep.restoreAux] ∧
      (if (false : Bool) then SSRStep.drawRaytrace
       else SSRStep.clearHit (0, 0, -1, 1/1000)) ∈ t1) :=
  do_ssr_sentinel_iff_invalid_history 2 false

/-! ## SSR configuration (`EEVEE_effects_init`, SSR branch) -/

/-- The BLI `CLAMP(a, b, c)` macro: `if (a < b) a = b; else if (a > c) a = c;`. -/
def c_clamp (v lo hi : Int) : Int :=
  if v < lo then lo else if hi < v then hi else v

/-- Result of the SSR part of `EEVEE_effects_init`: the stored
`effects->ssr_ray_count` and the hit-output textures attached to
`fbl->screen_tracing_fb` by `DRW_framebuffer_init` (which binds the
first `ssr_ray_count` entries of the 4-element `tex_output` array). -/
structure SSRInitResult where
  ray_count : Int
  hit_textures : List Nat
  deriving DecidableEq, Repr

/-- SSR branch of `EEVEE_effects_init`: read the requested
`ssr_ray_count`, clamp it to `[1, 4]`
(`CLAMP(effects->ssr_ray_count, 1, 4)`), then initialize the
screen-tracing framebuffer with that many hit-output textures. -/
def EEVEE_effects_init_ssr (requested : Int) : SSRInitResult :=
  let rc := c_clamp requested 1 4
  { ray_count := rc, hit_textures := List.range rc.toNat }

/-- C7: The requested SSR ray count is clamped to `[1, 4]` before use,
and the screen-tracing framebuffer is initialized with exactly the
clamped number of hit-output textures; in particular a requested ray
count of 6 yields 4 hit buffers. -/
theorem ssr_ray_count_clamped (requested : Int) :
    (1 ≤ (EEVEE_effects_init_ssr requested).ray_count ∧
      (EEVEE_effects_init_ssr requested).ray_count ≤ 4) ∧
    ((EEVEE_effects_init_ssr requested).hit_textures.length : Int) =
      (EEVEE_effects_init_ssr requested).ray_count ∧
    (EEVEE_effects_init_ssr 6).ray_count = 4 ∧
    (EEVEE_effects_init_ssr 6).hit_textures.length = 4 := by
  have h14 : 1 ≤ c_clamp requested 1 4 ∧ c_clamp requested 1 4 ≤ 4 := by
    unfold c_clamp; split <;> [omega; (split <;> omega)]
  refine ⟨h14, ?_, by decide, by decide⟩
  simp only [EEVEE_effects_init_ssr, List.length_range]
  omega

/-! ## SSR resolve-pass hit-buffer bindings (`EEVEE_effects_cache_init`) -/

/-- Hit-output index bound to uniform `hitBuffer<slot>` in the SSR
resolve pass (`EEVEE_effects_cache_init`):
`hitBuffer0` is always buffer 0; `hitBuffer1` is buffer 0 when
`ssr_ray_count < 2`, else buffer 1; `hitBuffer2` is buffer 0 when
`ssr_ray_count < 3`, else buffer 2; `hitBuffer3` is buffer 0 when
`ssr_ray_count < 4`, else buffer 3. -/
def ssr_resolve_hit_binding (ray_count : Int) : Nat → Nat
  | 1 => if ray_count < 2 then 0 else 1
  | 2 => if ray_count < 3 then 0 else 2
  | 3 => if ray_count < 4 then 0 else 3
  | _ => 0

/-- C10: for each uniform slot `i` in {1, 2, 3}, if the clamped
`ssr_ray_count` is at most `i` then `hitBuffer<i>` is bound to hit-output
buffer 0 instead of buffer `i`; consequently the resolve shader never
reads a hit-output texture beyond the allocated ray count. -/
theorem ssr_resolve_hit_binding_safe (ray_count : Int) (slot : Nat)
    (h1 : 1 ≤ ray_count) (h4 : ray_count ≤ 4) (hs : slot < 4) :
    (ray_count ≤ slot → ssr_resolve_hit_binding ray_count slot = 0) ∧
    ((ssr_resolve_hit_binding ray_count slot : Int) < ray_count) := by
  interval_cases slot <;> interval_cases ray_count <;>
    simp [ssr_resolve_hit_binding]

/-- Witness for C10: ray count 2 with slot 3 binds buffer 0, within range. -/
theorem ssr_resolve_hit_binding_safe_witness :
    ((2 : Int) ≤ (3 : Nat) → ssr_resolve_hit_binding 2 3 = 0) ∧
    ((ssr_resolve_hit_binding 2 3 : Int) < 2) :=
  ssr_resolve_hit_binding_safe 2 3 (by decide) (by decide) (by decide)

/-! ## Hi-Z pyramid construction (`EEVEE_create_minmax_buffer`) -/

/-- Modelled from the spec: `DRW_framebuffer_recursive_downsample` lives in
the draw manager, outside this excerpt.  Per the spec, "given a source
framebuffer/texture and a maximum level count, repeatedly halve resolution,
re-binding the same texture's next mip level as the render target and
invoking a caller-supplied draw callback, until either the level cap or a
1×1 size is reached".  Returns the (width, height) of each rendered mip
level, starting from a source of size `w × h`. -/
def DRW_framebuffer_recursive_downsample (w h : Nat) :
    (max_level : Nat) → List (Nat × Nat)
  | 0 => []
  | cap + 1 =>
    if w ≤ 1 ∧ h ≤ 1 then []
    else
      let w' := max 1 (w / 2)
      let h' := max 1 (h / 2)
      (w', h') :: DRW_framebuffer_recursive_downsample w' h' cap

/-- `EEVEE_create_minmax_buffer`: after seeding mip 0 of the half-resolution
min and max depth buffers from the full-resolution depth, invoke the
recursive downsample driver with a level cap of 8 on the min pyramid and,
independently, with a level cap of 8 on the max pyramid. -/
def EEVEE_create_minmax_buffer (vw vh : Nat) :
    List (Nat × Nat) × List (Nat × Nat) :=
  (DRW_framebuffer_recursive_downsample (vw / 2) (vh / 2) 8,
   DRW_framebuffer_recursive_downsample (vw / 2) (vh / 2) 8)

lemma recursive_downsample_length (w h cap : Nat) :
    (DRW_framebuffer_recursive_downsample w h cap).length ≤ cap := by
  induction cap generalizing w h with
  | zero => simp [DRW_framebuffer_recursive_downsample]
  | succ n ih =>
    unfold DRW_framebuffer_recursive_downsample
    split
    · simp
    · simpa using ih _ _

lemma recursive_downsample_dims (w h cap : Nat) :
    ∀ p ∈ DRW_framebuffer_recursive_downsample w h cap,
      1 ≤ p.1 ∧ 1 ≤ p.2 := by
  induction cap generalizing w h with
  | zero => simp [DRW_framebuffer_recursive_downsample]
  | succ n ih =>
    unfold DRW_framebuffer_recursive_downsample
    split
    · simp
    · intro p hp
      rcases List.mem_cons.mp hp with h1 | h2
      · subst h1; constructor <;> simp
      · exact ih _ _ p h2

/-- C9: `EEVEE_create_minmax_buffer` invokes the recursive downsample
driver with a level cap of 8 for the min pyramid and for the max pyramid
independently; for every viewport size the driver terminates with at
most 8 mip levels per pyramid, every produced level (in particular the
coarsest) having both dimensions at least 1. -/
theorem create_minmax_buffer_level_bound (vw vh : Nat) :
    ((EEVEE_create_minmax_buffer vw vh).1 =
        DRW_framebuffer_recursive_downsample (vw / 2) (vh / 2) 8 ∧
      (EEVEE_create_minmax_buffer vw vh).2 =
        DRW_framebuffer_recursive_downsample (vw / 2) (vh / 2) 8) ∧
    (EEVEE_create_minmax_buffer vw vh).1.length ≤ 8 ∧
    (EEVEE_create_minmax_buffer vw vh).2.length ≤ 8 ∧
    (∀ p ∈ (EEVEE_create_minmax_buffer vw vh).1, 1 ≤ p.1 ∧ 1 ≤ p.2) ∧
    (∀ p ∈ (EEVEE_create_minmax_buffer vw vh).2, 1 ≤ p.1 ∧ 1 ≤ p.2) :=
  ⟨⟨rfl, rfl⟩,
    recursive_downsample_length _ _ _,
    recursive_downsample_length _ _ _,
    recursive_downsample_dims _ _ _,
    recursive_downsample_dims _ _ _⟩

/-! ## Resource lifetime in `EEVEE_effects_init` -/

/-- Which texture serves as the DoF near-field downsample render target. -/
inductive NearTexChoice where
  | bloomDownsample0   -- txl->bloom_downsample[0]
  | dofDownNear        -- txl->dof_down_near
  deriving DecidableEq, Repr

/-- Allocation state of the textures and framebuffers manipulated by
`EEVEE_effects_init`.  `some i` is an allocated resource with identity `i`
(`i` drawn from the fresh-identity counter `next_id`), `none` is a NULL
pointer.  `dof_down_fb_near` records which texture the existing
`fbl->dof_down_fb` has as its first (near) attachment — attachments are
only set when the framebuffer is created, which is exactly why a
transition of the bloom/DoF aliasing state must free and rebuild it.
`ssr_hit_output` is the 4-element `stl->g_data->ssr_hit_output` array
(`true` = non-NULL).  The remaining bloom mip buffers
(`bloom_downsample[i>0]`, `bloom_upsample`), the Hi-Z buffers and the
volumetric TEMP textures follow the same allocate-if-NULL discipline and
are not observed by any claim, so they are not tracked. -/
structure ResourceState where
  bloom_blit : Option Nat
  bloom_blit_fb : Option Nat
  bloom_downsample_0 : Option Nat
  bloom_down_fb_0 : Option Nat
  dof_down_near : Option Nat
  dof_down_far : Option Nat
  dof_coc : Option Nat
  dof_far_blur : Option Nat
  dof_near_blur : Option Nat
  dof_down_fb : Option Nat
  dof_down_fb_near : Option NearTexChoice
  dof_scatter_far_fb : Option Nat
  dof_scatter_near_fb : Option Nat
  effect_fb : Option Nat
  volumetric_fb : Option Nat
  ssr_normal_input : Option Nat
  ssr_specrough_input : Option Nat
  screen_tracing_fb : Option Nat
  ssr_hit_output : List Bool
  color_double_buffer : Option Nat
  double_buffer_fb : Option Nat
  next_id : Nat
  deriving DecidableEq, Repr

/-- `DRW_framebuffer_init` / `DRW_texture_create` discipline for one slot:
keep the resource if it is already allocated, otherwise create a fresh
one (identity = current counter value). -/
def drw_init (slot : Option Nat) (next : Nat) : Option Nat × Nat :=
  (some (slot.getD next), if slot.isSome then next else next + 1)

@[simp] lemma drw_init_fst (slot : Option Nat) (next : Nat) :
    (drw_init slot next).1 = some (slot.getD next) := rfl

@[simp] lemma drw_init_snd (slot : Option Nat) (next : Nat) :
    (drw_init slot next).2 = if slot.isSome then next else next + 1 := rfl

lemma drw_init_le (slot : Option Nat) (next : Nat) :
    next ≤ (drw_init slot next).2 := by
  simp only [drw_init_snd]; split <;> omega

/-- Per-frame configuration consumed by `EEVEE_effects_init` (each flag
already folds in the guarding preconditions read from the draw context). -/
structure InitConfig where
  motion_blur : Bool      -- motion_blur_enable, camera view, matrices agree
  bloom : Bool            -- bloom_enable
  dof : Bool              -- dof_enable
  camera_ok : Bool        -- rv3d->persp == RV3D_CAMOB && v3d->camera
  volumetric : Bool       -- volumetric_enable
  world_ok : Bool         -- world with use_nodes and a node tree
  colored_transmit : Bool -- volumetric_colored_transmittance
  ssr : Bool              -- ssr_enable
  ssr_ray_count : Int     -- requested ssr_ray_count
  deriving DecidableEq, Repr

/-- The `effects->enabled_effects` bitmask produced by `EEVEE_effects_init`
(`EFFECT_DOF` requires the camera view, `EFFECT_VOLUMETRIC` the world
node tree, and `ssr_enable` sets both `EFFECT_SSR` and
`EFFECT_DOUBLE_BUFFER`). -/
def enabledOf (cfg : InitConfig) : EnabledEffects where
  motionBlur := cfg.motion_blur
  bloom := cfg.bloom
  dof := cfg.dof && cfg.camera_ok
  volumetric := cfg.volumetric && cfg.world_ok
  ssr := cfg.ssr
  doubleBuffer := cfg.ssr

/-- Bloom branch of `EEVEE_effects_init`: initialize the blit buffer and
the first downsample buffer (`bloom_downsample[0]` always exists because
the iteration count is clamped to at least 1). -/
def bloom_branch (r : ResourceState) : ResourceState :=
  let p1 := drw_init r.bloom_blit r.next_id
  let p2 := drw_init r.bloom_blit_fb p1.2
  let p3 := drw_init r.bloom_downsample_0 p2.2
  let p4 := drw_init r.bloom_down_fb_0 p3.2
  { r with
    bloom_blit := p1.1
    bloom_blit_fb := p2.1
    bloom_downsample_0 := p3.1
    bloom_down_fb_0 := p4.1
    next_id := p4.2 }

/-- Depth-of-field branch of `EEVEE_effects_init` (only entered when the
camera view is active): choose the near-field downsample target —
`txl->bloom_downsample[0]` when bloom is enabled this frame, else
`txl->dof_down_near`; set `fb_reset` when this aliasing state differs
from the previous frame's bloom bit; if so and `fbl->dof_down_fb` is
non-NULL, free it; then run `DRW_framebuffer_init` on the downsample and
scatter framebuffers (creating whatever is NULL; an existing framebuffer
keeps its attachments).  Returns the updated state and the near target
passed to the framebuffer setup this frame. -/
def dof_branch (bloomNow prev_bloom : Bool) (r : ResourceState) :
    ResourceState × NearTexChoice :=
  let nearChoice := if bloomNow then NearTexChoice.bloomDownsample0
    else NearTexChoice.dofDownNear
  let fb_reset := if bloomNow then !prev_bloom else prev_bloom
  let r := if fb_reset && r.dof_down_fb.isSome then
      { r with dof_down_fb := none, dof_down_fb_near := none }
    else r
  let pn := if bloomNow then drw_init r.bloom_downsample_0 r.next_id
    else drw_init r.dof_down_near r.next_id
  let pf := drw_init r.dof_down_far pn.2
  let pc := drw_init r.dof_coc pf.2
  let pfb := drw_init r.dof_down_fb pc.2
  let near' := if r.dof_down_fb.isSome then r.dof_down_fb_near
    else some nearChoice
  let pblurf := drw_init r.dof_far_blur pfb.2
  let pfbf := drw_init r.dof_scatter_far_fb pblurf.2
  let pblurn := drw_init r.dof_near_blur pfbf.2
  let pfbn := drw_init r.dof_scatter_near_fb pblurn.2
  ({ r with
      bloom_downsample_0 := if bloomNow then pn.1 else r.bloom_downsample_0
      dof_down_near := if bloomNow then r.dof_down_near else pn.1
      dof_down_far := pf.1
      dof_coc := pc.1
      dof_down_fb := pfb.1
      dof_down_fb_near := near'
      dof_far_blur := pblurf.1
      dof_scatter_far_fb := pfbf.1
      dof_near_blur := pblurn.1
      dof_scatter_near_fb := pfbn.1
      next_id := pfbn.2 }, nearChoice)

/-- Volumetric branch of `EEVEE_effects_init` (only entered with a world
node tree): a transmittance-mode change frees `fbl->volumetric_fb`
before `DRW_framebuffer_init` recreates it. -/
def volumetric_branch (colored prev_colored : Bool) (r : ResourceState) :
    ResourceState :=
  let r := if (prev_colored != colored) && r.volumetric_fb.isSome then
      { r with volumetric_fb := none }
    else r
  let p := drw_init r.volumetric_fb r.next_id
  { r with volumetric_fb := p.1, next_id := p.2 }

/-- SSR branch of `EEVEE_effects_init` when `ssr_enable` holds: create the
normal/spec-roughness inputs if NULL, initialize the screen-tracing
framebuffer with the first `CLAMP(ssr_ray_count, 1, 4)` hit-output
textures. -/
def ssr_branch (requested : Int) (r : ResourceState) : ResourceState :=
  let rc := c_clamp requested 1 4
  let p1 := drw_init r.ssr_normal_input r.next_id
  let p2 := drw_init r.ssr_specrough_input p1.2
  let p3 := drw_init r.screen_tracing_fb p2.2
  { r with
    ssr_normal_input := p1.1
    ssr_specrough_input := p2.1
    screen_tracing_fb := p3.1
    ssr_hit_output := (List.range 4).map
      (fun i => if i < rc.toNat then true else r.ssr_hit_output.getD i false)
    next_id := p3.2 }

/-- SSR cleanup branch of `EEVEE_effects_init` when `ssr_enable` is off:
`DRW_TEXTURE_FREE_SAFE(txl->ssr_normal_input)`,
`DRW_TEXTURE_FREE_SAFE(txl->ssr_specrough_input)`,
`DRW_FRAMEBUFFER_FREE_SAFE(fbl->screen_tracing_fb)` and NULL the four
`ssr_hit_output` entries. -/
def ssr_cleanup (r : ResourceState) : ResourceState :=
  { r with
    ssr_normal_input := none
    ssr_specrough_input := none
    screen_tracing_fb := none
    ssr_hit_output := List.replicate 4 false }

/-- Double-buffer setup/cleanup at the end of `EEVEE_effects_init`:
allocate `txl->color_double_buffer` and `fbl->double_buffer` when
`EFFECT_DOUBLE_BUFFER` is set, otherwise free both. -/
def double_buffer_branch (enabled : Bool) (r : ResourceState) :
    ResourceState :=
  if enabled then
    let p1 := drw_init r.color_double_buffer r.next_id
    let p2 := drw_init r.double_buffer_fb p1.2
    { r with
      color_double_buffer := p1.1
      double_buffer_fb := p2.1
      next_id := p2.2 }
  else
    { r with color_double_buffer := none, double_buffer_fb := none }

/-- Ping-pong buffer setup in `EEVEE_effects_init`: `fbl->effect_fb`
(with `txl->color_post`) is initialized when at least one of motion blur,
bloom or DoF is enabled (the mask value at that point of the function). -/
def effect_fb_branch (anyPost : Bool) (r : ResourceState) : ResourceState :=
  if anyPost then
    let p := drw_init r.effect_fb r.next_id
    { r with effect_fb := p.1, next_id := p.2 }
  else r

/-- Result of `EEVEE_effects_init`: the resource state, the computed
`enabled_effects` mask, and the near-field target passed to the DoF
downsample framebuffer setup this frame (if the DoF branch ran). -/
structure InitResult where
  state : ResourceState
  enabled : EnabledEffects
  dof_setup_near : Option NearTexChoice
  deriving DecidableEq, Repr

/-- `EEVEE_effects_init`: run the bloom, DoF, ping-pong, volumetric, SSR
and double-buffer resource steps in program order.  `prev_enabled` is the
`effects->enabled_effects` value left from the previous frame (read by
the DoF aliasing check before being overwritten), `prev_colored` the
previous `volumetrics->use_colored_transmit`. -/
def EEVEE_effects_init (cfg : InitConfig) (prev_enabled : EnabledEffects)
    (prev_colored : Bool) (r0 : ResourceState) : InitResult :=
  let r1 := if cfg.bloom then bloom_branch r0 else r0
  let dofEnabled := cfg.dof && cfg.camera_ok
  let dofRes := if dofEnabled then
      (fun p => (p.1, some p.2)) (dof_branch cfg.bloom prev_enabled.bloom r1)
    else (r1, none)
  let r2 := dofRes.1
  let r3 := effect_fb_branch (cfg.motion_blur || cfg.bloom || dofEnabled) r2
  let r4 := if cfg.volumetric && cfg.world_ok then
      volumetric_branch cfg.colored_transmit prev_colored r3
    else r3
  let r5 := if cfg.ssr then ssr_branch cfg.ssr_ray_count r4 else ssr_cleanup r4
  let r6 := double_buffer_branch cfg.ssr r5
  { state := r6, enabled := enabledOf cfg, dof_setup_near := dofRes.2 }

/-- Scatter-near source selection in `EEVEE_draw_effects` (DoF block):
reuse bloom's half-res buffer when bloom is enabled, else
`txl->dof_down_near`. -/
def dof_scatter_near_source (enabled : EnabledEffects) : NearTexChoice :=
  if enabled.bloom then NearTexChoice.bloomDownsample0
  else NearTexChoice.dofDownNear

lemma bloom_branch_untouched (r : ResourceState) :
    (bloom_branch r).dof_down_near = r.dof_down_near ∧
    (bloom_branch r).dof_down_far = r.dof_down_far ∧
    (bloom_branch r).dof_coc = r.dof_coc ∧
    (bloom_branch r).dof_far_blur = r.dof_far_blur ∧
    (bloom_branch r).dof_near_blur = r.dof_near_blur ∧
    (bloom_branch r).dof_down_fb = r.dof_down_fb ∧
    (bloom_branch r).dof_scatter_far_fb = r.dof_scatter_far_fb ∧
    (bloom_branch r).dof_scatter_near_fb = r.dof_scatter_near_fb ∧
    (bloom_branch r).volumetric_fb = r.volumetric_fb :=
  ⟨rfl, rfl, rfl, rfl, rfl, rfl, rfl, rfl, rfl⟩

lemma dof_branch_untouched (b pb : Bool) (r : ResourceState) :
    (dof_branch b pb r).1.bloom_blit = r.bloom_blit ∧
    (dof_branch b pb r).1.bloom_blit_fb = r.bloom_blit_fb ∧
    (dof_branch b pb r).1.bloom_down_fb_0 = r.bloom_down_fb_0 ∧
    (dof_branch b pb r).1.volumetric_fb = r.volumetric_fb := by
  unfold dof_branch
  dsimp only
  split <;> split <;> exact ⟨rfl, rfl, rfl, rfl⟩

lemma dof_branch_no_bloom (pb : Bool) (r : ResourceState) :
    (dof_branch false pb r).1.bloom_downsample_0 = r.bloom_downsample_0 := by
  unfold dof_branch
  simp only [Bool.false_eq_true, if_false]
  split <;> rfl

lemma effect_fb_branch_untouched (a : Bool) (r : ResourceState) :
    (effect_fb_branch a r).bloom_blit = r.bloom_blit ∧
    (effect_fb_branch a r).bloom_blit_fb = r.bloom_blit_fb ∧
    (effect_fb_branch a r).bloom_downsample_0 = r.bloom_downsample_0 ∧
    (effect_fb_branch a r).bloom_down_fb_0 = r.bloom_down_fb_0 ∧
    (effect_fb_branch a r).dof_down_near = r.dof_down_near ∧
    (effect_fb_branch a r).dof_down_far = r.dof_down_far ∧
    (effect_fb_branch a r).dof_coc = r.dof_coc ∧
    (effect_fb_branch a r).dof_far_blur = r.dof_far_blur ∧
    (effect_fb_branch a r).dof_near_blur = r.dof_near_blur ∧
    (effect_fb_branch a r).dof_down_fb = r.dof_down_fb ∧
    (effect_fb_branch a r).dof_scatter_far_fb = r.dof_scatter_far_fb ∧
    (effect_fb_branch a r).dof_scatter_near_fb = r.dof_scatter_near_fb ∧
    (effect_fb_branch a r).volumetric_fb = r.volumetric_fb := by
  unfold effect_fb_branch
  split <;> exact ⟨rfl, rfl, rfl, rfl, rfl, rfl, rfl, rfl, rfl, rfl, rfl,
    rfl, rfl⟩

lemma volumetric_branch_untouched (c p : Bool) (r : ResourceState) :
    (volumetric_branch c p r).bloom_blit = r.bloom_blit ∧
    (volumetric_branch c p r).bloom_blit_fb = r.bloom_blit_fb ∧
    (volumetric_branch c p r).bloom_downsample_0 = r.bloom_downsample_0 ∧
    (volumetric_branch c p r).bloom_down_fb_0 = r.bloom_down_fb_0 ∧
    (volumetric_branch c p r).dof_down_near = r.dof_down_near ∧
    (volumetric_branch c p r).dof_down_far = r.dof_down_far ∧
    (volumetric_branch c p r).dof_coc = r.dof_coc ∧
    (volumetric_branch c p r).dof_far_blur = r.dof_far_blur ∧
    (volumetric_branch c p r).dof_near_blur = r.dof_near_blur ∧
    (volumetric_branch c p r).dof_down_fb = r.dof_down_fb ∧
    (volumetric_branch c p r).dof_scatter_far_fb = r.dof_scatter_far_fb ∧
    (volumetric_branch c p r).dof_scatter_near_fb = r.dof_scatter_near_fb := by
  unfold volumetric_branch
  dsimp only
  split <;> exact ⟨rfl, rfl, rfl, rfl, rfl, rfl, rfl, rfl, rfl, rfl, rfl, rfl⟩

lemma ssr_branch_untouched (rc : Int) (r : ResourceState) :
    (ssr_branch rc r).bloom_blit = r.bloom_blit ∧
    (ssr_branch rc r).bloom_blit_fb = r.bloom_blit_fb ∧
    (ssr_branch rc r).bloom_downsample_0 = r.bloom_downsample_0 ∧
    (ssr_branch rc r).bloom_down_fb_0 = r.bloom_down_fb_0 ∧
    (ssr_branch rc r).dof_down_near = r.dof_down_near ∧
    (ssr_branch rc r).dof_down_far = r.dof_down_far ∧
    (ssr_branch rc r).dof_coc = r.dof_coc ∧
    (ssr_branch rc r).dof_far_blur = r.dof_far_blur ∧
    (ssr_branch rc r).dof_near_blur = r.dof_near_blur ∧
    (ssr_branch rc r).dof_down_fb = r.dof_down_fb ∧
    (ssr_branch rc r).dof_scatter_far_fb = r.dof_scatter_far_fb ∧
    (ssr_branch rc r).dof_scatter_near_fb = r.dof_scatter_near_fb ∧
    (ssr_branch rc r).volumetric_fb = r.volumetric_fb :=
  ⟨rfl, rfl, rfl, rfl, rfl, rfl, rfl, rfl, rfl, rfl, rfl, rfl, rfl⟩

lemma ssr_cleanup_untouched (r : ResourceState) :
    (ssr_cleanup r).bloom_blit = r.bloom_blit ∧
    (ssr_cleanup r).bloom_blit_fb = r.bloom_blit_fb ∧
    (ssr_cleanup r).bloom_downsample_0 = r.bloom_downsample_0 ∧
    (ssr_cleanup r).bloom_down_fb_0 = r.bloom_down_fb_0 ∧
    (ssr_cleanup r).dof_down_near = r.dof_down_near ∧
    (ssr_cleanup r).dof_down_far = r.dof_down_far ∧
    (ssr_cleanup r).dof_coc = r.dof_coc ∧
    (ssr_cleanup r).dof_far_blur = r.dof_far_blur ∧
    (ssr_cleanup r).dof_near_blur = r.dof_near_blur ∧
    (ssr_cleanup r).dof_down_fb = r.dof_down_fb ∧
    (ssr_cleanup r).dof_scatter_far_fb = r.dof_scatter_far_fb ∧
    (ssr_cleanup r).dof_scatter_near_fb = r.dof_scatter_near_fb ∧
    (ssr_cleanup r).volumetric_fb = r.volumetric_fb :=
  ⟨rfl, rfl, rfl, rfl, rfl, rfl, rfl, rfl, rfl, rfl, rfl, rfl, rfl⟩

lemma double_buffer_branch_untouched (e : Bool) (r : ResourceState) :
    (double_buffer_branch e r).bloom_blit = r.bloom_blit ∧
    (double_buffer_branch e r).bloom_blit_fb = r.bloom_blit_fb ∧
    (double_buffer_branch e r).bloom_downsample_0 = r.bloom_downsample_0 ∧
    (double_buffer_branch e r).bloom_down_fb_0 = r.bloom_down_fb_0 ∧
    (double_buffer_branch e r).dof_down_near = r.dof_down_near ∧
    (double_buffer_branch e r).dof_down_far = r.dof_down_far ∧
    (double_buffer_branch e r).dof_coc = r.dof_coc ∧
    (double_buffer_branch e r).dof_far_blur = r.dof_far_blur ∧
    (double_buffer_branch e r).dof_near_blur = r.dof_near_blur ∧
    (double_buffer_branch e r).dof_down_fb = r.dof_down_fb ∧
    (double_buffer_branch e r).dof_scatter_far_fb = r.dof_scatter_far_fb ∧
    (double_buffer_branch e r).dof_scatter_near_fb = r.dof_scatter_near_fb ∧
    (double_buffer_branch e r).volumetric_fb = r.volumetric_fb ∧
    (double_buffer_branch e r).ssr_normal_input = r.ssr_normal_input ∧
    (double_buffer_branch e r).ssr_specrough_input = r.ssr_specrough_input ∧
    (double_buffer_branch e r).screen_tracing_fb = r.screen_tracing_fb ∧
    (double_buffer_branch e r).ssr_hit_output = r.ssr_hit_output := by
  unfold double_buffer_branch
  split <;> exact ⟨rfl, rfl, rfl, rfl, rfl, rfl, rfl, rfl, rfl, rfl, rfl,
    rfl, rfl, rfl, rfl, rfl, rfl⟩

lemma bloom_branch_next (r : ResourceState) :
    r.next_id ≤ (bloom_branch r).next_id := by
  unfold bloom_branch
  dsimp only
  exact le_trans (drw_init_le _ _) (le_trans (drw_init_le _ _)
    (le_trans (drw_init_le _ _) (drw_init_le _ _)))

lemma dof_branch_second (b pb : Bool) (r : ResourceState) :
    (dof_branch b pb r).2 =
      (if b then NearTexChoice.bloomDownsample0
       else NearTexChoice.dofDownNear) := rfl

/-- If the aliasing state changed (`fb_reset`) and `fbl->dof_down_fb` was
live, the DoF branch frees it and `DRW_framebuffer_init` recreates it
with a fresh identity (at least the incoming counter value). -/
lemma dof_branch_rebuild (b pb : Bool) (r : ResourceState)
    (hreset : (if b then !pb else pb) = true)
    (hsome : r.dof_down_fb.isSome = true) :
    ∃ j, (dof_branch b pb r).1.dof_down_fb = some j ∧ r.next_id ≤ j := by
  unfold dof_branch
  dsimp only
  rw [hreset, hsome]
  simp only [Bool.and_self, eq_self_iff_true, if_true, drw_init_fst,
    Option.getD_none]
  refine ⟨_, rfl, ?_⟩
  have h0 : r.next_id ≤
      (if b then drw_init r.bloom_downsample_0 r.next_id
       else drw_init r.dof_down_near r.next_id).2 := by
    cases b <;> exact drw_init_le _ _
  exact le_trans h0 (le_trans (drw_init_le _ _) (drw_init_le _ _))

/-- A frame-start resource state in which every bloom resource is live
(as left by a frame that had bloom enabled) and nothing else is. -/
def leakState : ResourceState where
  bloom_blit := some 0
  bloom_blit_fb := some 1
  bloom_downsample_0 := some 2
  bloom_down_fb_0 := some 3
  dof_down_near := none
  dof_down_far := none
  dof_coc := none
  dof_far_blur := none
  dof_near_blur := none
  dof_down_fb := none
  dof_down_fb_near := none
  dof_scatter_far_fb := none
  dof_scatter_near_fb := none
  effect_fb := some 4
  volumetric_fb := none
  ssr_normal_input := none
  ssr_specrough_input := none
  screen_tracing_fb := none
  ssr_hit_output := [false, false, false, false]
  color_double_buffer := none
  double_buffer_fb := none
  next_id := 10

/-- Configuration with every effect disabled. -/
def allOffConfig : InitConfig where
  motion_blur := false
  bloom := false
  dof := false
  camera_ok := false
  volumetric := false
  world_ok := false
  colored_transmit := false
  ssr := false
  ssr_ray_count := 0

/-- Previous-frame mask with only `EFFECT_BLOOM` set. -/
def bloomOnlyPrev : EnabledEffects where
  motionBlur := false
  bloom := true
  dof := false
  volumetric := false
  ssr := false
  doubleBuffer := false

/-- C2 counterexample: bloom was enabled in the previous frame and is
disabled now, yet `EEVEE_effects_init` leaves every bloom texture and
framebuffer allocated (`txl->bloom_blit` is still live at the end of the
init), so not every effect's resources are freed on disable. -/
theorem effects_init_leak_counterexample :
    bloomOnlyPrev.bloom = true ∧
    (EEVEE_effects_init allOffConfig bloomOnlyPrev false leakState).enabled.bloom
      = false ∧
    (EEVEE_effects_init allOffConfig bloomOnlyPrev false leakState).state.bloom_blit
      = some 0 ∧
    (EEVEE_effects_init allOffConfig bloomOnlyPrev false leakState).state.bloom_blit_fb
      = some 1 ∧
    (EEVEE_effects_init allOffConfig bloomOnlyPrev false leakState).state.bloom_downsample_0
      = some 2 ∧
    (EEVEE_effects_init allOffConfig bloomOnlyPrev false leakState).state.bloom_down_fb_0
      = some 3 := by
  decide

/-- C2 (amended): `EEVEE_effects_init` frees only the SSR-owned and
double-buffer-owned resources when their bit is cleared — the SSR
normal/spec-roughness inputs, the screen-tracing framebuffer and the hit
outputs become NULL, and so do the color double buffer and its
framebuffer; bloom, depth-of-field and volumetric resources are left
untouched whenever their branch does not run, regardless of the previous
frame's mask. -/
theorem effects_init_release_policy (cfg : InitConfig)
    (prev : EnabledEffects) (pc : Bool) (r0 : ResourceState) :
    (cfg.ssr = false →
      (EEVEE_effects_init cfg prev pc r0).state.ssr_normal_input = none ∧
      (EEVEE_effects_init cfg prev pc r0).state.ssr_specrough_input = none ∧
      (EEVEE_effects_init cfg prev pc r0).state.screen_tracing_fb = none ∧
      (EEVEE_effects_init cfg prev pc r0).state.ssr_hit_output =
        List.replicate 4 false ∧
      (EEVEE_effects_init cfg prev pc r0).state.color_double_buffer = none ∧
      (EEVEE_effects_init cfg prev pc r0).state.double_buffer_fb = none) ∧
    (cfg.bloom = false →
      (EEVEE_effects_init cfg prev pc r0).state.bloom_blit = r0.bloom_blit ∧
      (EEVEE_effects_init cfg prev pc r0).state.bloom_blit_fb =
        r0.bloom_blit_fb ∧
      (EEVEE_effects_init cfg prev pc r0).state.bloom_downsample_0 =
        r0.bloom_downsample_0 ∧
      (EEVEE_effects_init cfg prev pc r0).state.bloom_down_fb_0 =
        r0.bloom_down_fb_0) ∧
    ((cfg.dof && cfg.camera_ok) = false →
      (EEVEE_effects_init cfg prev pc r0).state.dof_down_near =
        r0.dof_down_near ∧
      (EEVEE_effects_init cfg prev pc r0).state.dof_down_far =
        r0.dof_down_far ∧
      (EEVEE_effects_init cfg prev pc r0).state.dof_coc = r0.dof_coc ∧
      (EEVEE_effects_init cfg prev pc r0).state.dof_far_blur =
        r0.dof_far_blur ∧
      (EEVEE_effects_init cfg prev pc r0).state.dof_near_blur =
        r0.dof_near_blur ∧
      (EEVEE_effects_init cfg prev pc r0).state.dof_down_fb =
        r0.dof_down_fb ∧
      (EEVEE_effects_init cfg prev pc r0).state.dof_scatter_far_fb =
        r0.dof_scatter_far_fb ∧
      (EEVEE_effects_init cfg prev pc r0).state.dof_scatter_near_fb =
        r0.dof_scatter_near_fb) ∧
    ((cfg.volumetric && cfg.world_ok) = false →
      (EEVEE_effects_init cfg prev pc r0).state.volumetric_fb =
        r0.volumetric_fb) := by
  refine ⟨?_, ?_, ?_, ?_⟩ <;> intro h
  · simp only [EEVEE_effects_init, h]
    simp [double_buffer_branch, ssr_cleanup]
  · simp only [EEVEE_effects_init, h]
    simp [apply_ite (Prod.fst : ResourceState × Option NearTexChoice → ResourceState),
      apply_ite ResourceState.bloom_blit,
      apply_ite ResourceState.bloom_blit_fb,
      apply_ite ResourceState.bloom_downsample_0,
      apply_ite ResourceState.bloom_down_fb_0,
      double_buffer_branch_untouched, ssr_branch_untouched,
      ssr_cleanup_untouched, volumetric_branch_untouched,
      effect_fb_branch_untouched, dof_branch_untouched, dof_branch_no_bloom]
  · simp only [EEVEE_effects_init, h]
    simp [apply_ite (Prod.fst : ResourceState × Option NearTexChoice → ResourceState),
      apply_ite ResourceState.dof_down_near,
      apply_ite ResourceState.dof_down_far,
      apply_ite ResourceState.dof_coc,
      apply_ite ResourceState.dof_far_blur,
      apply_ite ResourceState.dof_near_blur,
      apply_ite ResourceState.dof_down_fb,
      apply_ite ResourceState.dof_scatter_far_fb,
      apply_ite ResourceState.dof_scatter_near_fb,
      double_buffer_branch_untouched, ssr_branch_untouched,
      ssr_cleanup_untouched, volumetric_branch_untouched,
      effect_fb_branch_untouched, bloom_branch_untouched]
  · simp only [EEVEE_effects_init, h]
    simp [apply_ite (Prod.fst : ResourceState × Option NearTexChoice → ResourceState),
      apply_ite ResourceState.volumetric_fb,
      double_buffer_branch_untouched, ssr_branch_untouched,
      ssr_cleanup_untouched, effect_fb_branch_untouched,
      dof_branch_untouched, bloom_branch_untouched]

/-- C8: When both bloom and depth-of-field are enabled, the DoF
near-field downsample target is bloom's first downsample buffer
(`txl->bloom_downsample[0]`) rather than `txl->dof_down_near`, both at
framebuffer setup in `EEVEE_effects_init` and when binding the
scatter-near source in `EEVEE_draw_effects`; and whenever bloom's
enablement differs from the previous frame while DoF is enabled, the
live DoF downsample framebuffer is freed and rebuilt (it ends the init
with a fresh identity). -/
theorem dof_bloom_aliasing (cfg : InitConfig) (prev : EnabledEffects)
    (pc : Bool) (r0 : ResourceState)
    (hdof : cfg.dof = true) (hcam : cfg.camera_ok = true) :
    (cfg.bloom = true →
      (EEVEE_effects_init cfg prev pc r0).dof_setup_near =
        some NearTexChoice.bloomDownsample0 ∧
      dof_scatter_near_source (EEVEE_effects_init cfg prev pc r0).enabled =
        NearTexChoice.bloomDownsample0) ∧
    (∀ old, cfg.bloom ≠ prev.bloom → r0.dof_down_fb = some old →
      old < r0.next_id →
      ∃ j, (EEVEE_effects_init cfg prev pc r0).state.dof_down_fb = some j ∧
        j ≠ old) := by
  have hguard : (cfg.dof && cfg.camera_ok) = true := by simp [hdof, hcam]
  constructor
  · intro hb
    constructor
    · simp [EEVEE_effects_init, hguard, dof_branch_second, hb]
    · simp [dof_scatter_near_source, EEVEE_effects_init, enabledOf, hb]
  · intro old hne hold hlt
    have hreset : (if cfg.bloom then !prev.bloom else prev.bloom) = true := by
      cases hb : cfg.bloom <;> cases hp : prev.bloom <;> simp_all
    have hr1some : (if cfg.bloom = true then bloom_branch r0 else r0).dof_down_fb
        = some old := by
      split <;> exact hold
    have hr1next : r0.next_id ≤
        (if cfg.bloom = true then bloom_branch r0 else r0).next_id := by
      split
      · exact bloom_branch_next r0
      · exact le_refl _
    obtain ⟨j, hj, hge⟩ := dof_branch_rebuild cfg.bloom prev.bloom
      (if cfg.bloom = true then bloom_branch r0 else r0) hreset
      (by rw [hr1some]; rfl)
    refine ⟨j, ?_, by omega⟩
    simp only [EEVEE_effects_init, hguard]
    simp [apply_ite ResourceState.dof_down_fb, ite_self,
      double_buffer_branch_untouched, ssr_branch_untouched,
      ssr_cleanup_untouched, volumetric_branch_untouched,
      effect_fb_branch_untouched, hj]

/-- Previous-frame mask with nothing enabled. -/
def noneEnabledPrev : EnabledEffects where
  motionBlur := false
  bloom := false
  dof := false
  volumetric := false
  ssr := false
  doubleBuffer := false

/-- `leakState` with a live DoF downsample framebuffer of identity 5. -/
def dofLiveState : ResourceState :=
  { leakState with
    dof_down_fb := some 5
    dof_down_fb_near := some NearTexChoice.dofDownNear }

/-- Witness for C8: bloom turned on this frame (previous frame had it
off) with DoF active and a live downsample framebuffer of identity 5:
the near target aliases bloom's buffer and the framebuffer is rebuilt
with a fresh identity. -/
theorem dof_bloom_aliasing_witness :
    ((EEVEE_effects_init
        ⟨false, true, true, true, false, false, false, false, 0⟩
        noneEnabledPrev false dofLiveState).dof_setup_near =
      some NearTexChoice.bloomDownsample0 ∧
    dof_scatter_near_source
        (EEVEE_effects_init
          ⟨false, true, true, true, false, false, false, false, 0⟩
          noneEnabledPrev false dofLiveState).enabled =
      NearTexChoice.bloomDownsample0) ∧
    (∃ j, (EEVEE_effects_init
        ⟨false, true, true, true, false, false, false, false, 0⟩
        noneEnabledPrev false dofLiveState).state.dof_down_fb = some j ∧
      j ≠ 5) := by
  have h := dof_bloom_aliasing
    ⟨false, true, true, true, false, false, false, false, 0⟩
    noneEnabledPrev false dofLiveState rfl rfl
  exact ⟨h.1 rfl, h.2 5 (by decide) rfl (by decide)⟩

/-- `leakState` with live SSR and double-buffer resources as well. -/
def ssrLiveState : ResourceState :=
  { leakState with
    ssr_normal_input := some 7
    color_double_buffer := some 8 }

/-- Witness for C2 (amended) at the all-off configuration and a state
holding live bloom and SSR resources. -/
theorem effects_init_release_policy_witness :
    ((EEVEE_effects_init allOffConfig bloomOnlyPrev false
        ssrLiveState).state.ssr_normal_input = none ∧
      (EEVEE_effects_init allOffConfig bloomOnlyPrev false
        ssrLiveState).state.color_double_buffer = none) ∧
    (EEVEE_effects_init allOffConfig bloomOnlyPrev false
        ssrLiveState).state.bloom_blit = ssrLiveState.bloom_blit := by
  have h := effects_init_release_policy allOffConfig bloomOnlyPrev false
    ssrLiveState
  exact ⟨⟨(h.1 rfl).1, (h.1 rfl).2.2.2.2.1⟩, (h.2.1 rfl).1⟩

/-! ## Bloom iteration count (`EEVEE_effects_init`, bloom branch)

The C code computes
`maxIter = (radius - 8.0f) + log(minDim) / log(2)` on floats (idealized
here as the exact real `radius - 8 + log2 minDim`), truncates it to `int`
(C truncation toward zero) and clamps to `[1, MAX_BLOOM_STEP]`.
`MAX_BLOOM_STEP` is defined in `eevee_private.h`, which is not part of
this excerpt, so it is kept as a parameter `M`.  The truncated floor is
computed exactly over rationals by clearing denominators. -/

/-- Decides `(2:ℝ) ^ (x:ℝ) ≤ m` for a rational exponent: for
`x = p/q` with `q > 0`, `2 ^ (p/q) ≤ m ↔ 2 ^ p ≤ m ^ q`, and a negative
`p` is moved to the other side. -/
def pow2RatLe (x : ℚ) (m : ℕ) : Bool :=
  if 0 ≤ x.num then decide (2 ^ x.num.toNat ≤ m ^ x.den)
  else decide (1 ≤ m ^ x.den * 2 ^ (-x.num).toNat)

/-- Decides `(2:ℝ) ^ (x:ℝ) = m`, by the same denominator clearing. -/
def pow2RatEq (x : ℚ) (m : ℕ) : Bool :=
  if 0 ≤ x.num then decide (2 ^ x.num.toNat = m ^ x.den)
  else decide (m ^ x.den * 2 ^ (-x.num).toNat = 1)

/-- `⌊a + log2 m⌋` computed exactly: the value is `⌊a⌋ + ⌊log2 m⌋` or one
more, and the extra one occurs exactly when `2 ^ (k0 + 1 - a) ≤ m`. -/
def floorAddLog2 (a : ℚ) (m : ℕ) : ℤ :=
  let k0 : ℤ := ⌊a⌋ + Nat.log 2 m
  if pow2RatLe (((k0 : ℚ) + 1) - a) m then k0 + 1 else k0

/-- `(int)(a + log2 m)`: C truncation toward zero — the floor for a
nonnegative value, the ceiling (floor plus one unless exact) for a
negative one. -/
def truncAddLog2 (a : ℚ) (m : ℕ) : ℤ :=
  let f := floorAddLog2 a m
  if 0 ≤ f then f
  else if pow2RatEq ((f : ℚ) - a) m then f else f + 1

/-- Bloom iteration count of `EEVEE_effects_init`:
`effects->bloom_iteration_ct = (int)((radius - 8) + log2 (min w h))`
followed by `CLAMP(effects->bloom_iteration_ct, 1, MAX_BLOOM_STEP)`. -/
def bloom_iteration_ct (radius : ℚ) (w h : ℕ) (M : ℤ) : ℤ :=
  c_clamp (truncAddLog2 (radius - 8) (min w h)) 1 M

lemma rpow_rat_den_pow (x : ℚ) :
    ((2:ℝ) ^ (x:ℝ)) ^ (x.den : ℕ) = (2:ℝ) ^ (x.num : ℤ) := by
  have hden : ((x.den : ℝ)) ≠ 0 := Nat.cast_ne_zero.mpr x.den_nz
  calc ((2:ℝ) ^ (x:ℝ)) ^ (x.den : ℕ)
      = (2:ℝ) ^ ((x:ℝ) * (x.den : ℝ)) := by
        rw [← Real.rpow_natCast ((2:ℝ) ^ (x:ℝ)) x.den,
          ← Real.rpow_mul (by norm_num)]
    _ = (2:ℝ) ^ ((x.num : ℝ)) := by
        rw [Rat.cast_def, div_mul_cancel₀ _ hden]
    _ = (2:ℝ) ^ (x.num : ℤ) := Real.rpow_intCast 2 x.num

lemma pow2RatLe_iff (x : ℚ) (m : ℕ) :
    pow2RatLe x m = true ↔ (2:ℝ) ^ (x:ℝ) ≤ (m:ℝ) := by
  have hden : x.den ≠ 0 := x.den_nz
  have h2 : (0:ℝ) ≤ (2:ℝ) ^ (x:ℝ) := (Real.rpow_pos_of_pos (by norm_num) _).le
  have hmr : (0:ℝ) ≤ (m:ℝ) := Nat.cast_nonneg m
  have key : (2:ℝ) ^ (x:ℝ) ≤ (m:ℝ) ↔
      (2:ℝ) ^ (x.num : ℤ) ≤ (m:ℝ) ^ (x.den : ℕ) := by
    rw [← pow_le_pow_iff_left₀ h2 hmr hden, rpow_rat_den_pow]
  rw [key]
  unfold pow2RatLe
  by_cases hnum : 0 ≤ x.num
  · rw [if_pos hnum, decide_eq_true_eq]
    obtain ⟨k, hk⟩ : ∃ k : ℕ, x.num = (k : ℤ) :=
      ⟨x.num.toNat, (Int.toNat_of_nonneg hnum).symm⟩
    have hkk : x.num.toNat = k := by omega
    have h2n : (2:ℝ) ^ (x.num : ℤ) = ((2 ^ k : ℕ) : ℝ) := by
      rw [hk, zpow_natCast]
      push_cast
      ring
    rw [hkk, h2n]
    exact_mod_cast Iff.rfl
  · rw [if_neg hnum, decide_eq_true_eq]
    obtain ⟨k, hk⟩ : ∃ k : ℕ, x.num = -(k : ℤ) := ⟨(-x.num).toNat, by omega⟩
    have hkk : (-x.num).toNat = k := by omega
    have h2n : (2:ℝ) ^ (x.num : ℤ) = ((2 ^ k : ℕ) : ℝ)⁻¹ := by
      rw [hk, zpow_neg, zpow_natCast]
      push_cast
      ring
    rw [hkk, h2n, inv_le_iff_one_le_mul₀ (by positivity)]
    exact_mod_cast Iff.rfl

lemma pow2RatEq_iff (x : ℚ) (m : ℕ) :
    pow2RatEq x m = true ↔ (2:ℝ) ^ (x:ℝ) = (m:ℝ) := by
  have hden : x.den ≠ 0 := x.den_nz
  have h2 : (0:ℝ) ≤ (2:ℝ) ^ (x:ℝ) := (Real.rpow_pos_of_pos (by norm_num) _).le
  have hmr : (0:ℝ) ≤ (m:ℝ) := Nat.cast_nonneg m
  have key : (2:ℝ) ^ (x:ℝ) = (m:ℝ) ↔
      (2:ℝ) ^ (x.num : ℤ) = (m:ℝ) ^ (x.den : ℕ) := by
    constructor
    · intro h
      rw [← rpow_rat_den_pow, h]
    · intro h
      have h1 : (2:ℝ) ^ (x:ℝ) ≤ (m:ℝ) := by
        rw [← pow_le_pow_iff_left₀ h2 hmr hden, rpow_rat_den_pow]
        exact le_of_eq h
      have h1' : (m:ℝ) ≤ (2:ℝ) ^ (x:ℝ) := by
        rw [← pow_le_pow_iff_left₀ hmr h2 hden, rpow_rat_den_pow]
        exact le_of_eq h.symm
      exact le_antisymm h1 h1'
  rw [key]
  unfold pow2RatEq
  by_cases hnum : 0 ≤ x.num
  · rw [if_pos hnum, decide_eq_true_eq]
    obtain ⟨k, hk⟩ : ∃ k : ℕ, x.num = (k : ℤ) :=
      ⟨x.num.toNat, (Int.toNat_of_nonneg hnum).symm⟩
    have hkk : x.num.toNat = k := by omega
    have h2n : (2:ℝ) ^ (x.num : ℤ) = ((2 ^ k : ℕ) : ℝ) := by
      rw [hk, zpow_natCast]
      push_cast
      ring
    rw [hkk, h2n]
    exact_mod_cast Iff.rfl
  · rw [if_neg hnum, decide_eq_true_eq]
    obtain ⟨k, hk⟩ : ∃ k : ℕ, x.num = -(k : ℤ) := ⟨(-x.num).toNat, by omega⟩
    have hkk : (-x.num).toNat = k := by omega
    have h2n : (2:ℝ) ^ (x.num : ℤ) = ((2 ^ k : ℕ) : ℝ)⁻¹ := by
      rw [hk, zpow_neg, zpow_natCast]
      push_cast
      ring
    rw [hkk, h2n, inv_eq_one_div, div_eq_iff (by positivity)]
    exact_mod_cast eq_comm

lemma natLog_le_logb (m : ℕ) (hm : 1 ≤ m) :
    (Nat.log 2 m : ℝ) ≤ Real.logb 2 m ∧
    Real.logb 2 m < (Nat.log 2 m : ℝ) + 1 := by
  have hm0 : m ≠ 0 := by omega
  have hmr : (0:ℝ) < m := by exact_mod_cast Nat.pos_of_ne_zero hm0
  have h1 : ((2 ^ Nat.log 2 m : ℕ) : ℝ) ≤ m := by
    exact_mod_cast Nat.pow_log_le_self 2 hm0
  have h2 : (m : ℝ) < ((2 ^ (Nat.log 2 m + 1) : ℕ) : ℝ) := by
    exact_mod_cast Nat.lt_pow_succ_log_self (by norm_num) m
  have hpowL : ((2 ^ Nat.log 2 m : ℕ) : ℝ) =
      (2:ℝ) ^ ((Nat.log 2 m : ℕ) : ℝ) := by
    rw [Real.rpow_natCast]
    push_cast
    ring
  have hpowL1 : ((2 ^ (Nat.log 2 m + 1) : ℕ) : ℝ) =
      (2:ℝ) ^ (((Nat.log 2 m : ℝ)) + 1) := by
    rw [show (Nat.log 2 m : ℝ) + 1 = (((Nat.log 2 m + 1 : ℕ) : ℕ) : ℝ) by
      push_cast; ring, Real.rpow_natCast]
    push_cast
    ring
  constructor
  · have := Real.logb_le_logb_of_le one_lt_two
      (x := ((2 ^ Nat.log 2 m : ℕ) : ℝ)) (by positivity) h1
    rwa [hpowL, Real.logb_rpow two_pos (by norm_num)] at this
  · have := Real.logb_lt_logb one_lt_two hmr h2
    rwa [hpowL1, Real.logb_rpow two_pos (by norm_num)] at this

lemma floorAddLog2_eq (a : ℚ) (m : ℕ) (hm : 1 ≤ m) :
    floorAddLog2 a m = ⌊(a : ℝ) + Real.logb 2 m⌋ := by
  have hmr : (0:ℝ) < m := by
    exact_mod_cast Nat.pos_of_ne_zero (by omega)
  obtain ⟨hL1, hL2⟩ := natLog_le_logb m hm
  have hfl : ((⌊a⌋ : ℤ) : ℝ) ≤ (a : ℝ) := by
    rw [← Rat.floor_cast (α := ℝ)]
    exact Int.floor_le _
  have hfl2 : (a : ℝ) < (⌊a⌋ : ℝ) + 1 := by
    rw [← Rat.floor_cast (α := ℝ)]
    exact Int.lt_floor_add_one _
  unfold floorAddLog2
  by_cases hc : pow2RatLe (((((⌊a⌋ : ℤ) + (Nat.log 2 m : ℤ) : ℤ) : ℚ) + 1) - a)
      m = true
  · rw [if_pos hc]
    rw [pow2RatLe_iff] at hc
    have hcast : ((((((⌊a⌋ : ℤ) + (Nat.log 2 m : ℤ) : ℤ) : ℚ) + 1) - a : ℚ) : ℝ)
        = (((⌊a⌋ : ℤ) + (Nat.log 2 m : ℤ) : ℤ) : ℝ) + 1 - (a : ℝ) := by
      push_cast
      ring
    rw [hcast] at hc
    have h3 : (((⌊a⌋ : ℤ) + (Nat.log 2 m : ℤ) : ℤ) : ℝ) + 1 - (a : ℝ) ≤
        Real.logb 2 m := by
      have hiff := Real.rpow_le_rpow_left_iff (x := (2:ℝ))
        (y := (((⌊a⌋ : ℤ) + (Nat.log 2 m : ℤ) : ℤ) : ℝ) + 1 - (a : ℝ))
        (z := Real.logb 2 m) one_lt_two
      rw [Real.rpow_logb two_pos (by norm_num) hmr] at hiff
      exact hiff.mp hc
    symm
    rw [Int.floor_eq_iff]
    constructor
    · push_cast
      push_cast at h3
      linarith
    · push_cast
      push_cast at hfl2 hL2
      linarith
  · rw [if_neg hc]
    have hc' : ¬ ((2:ℝ) ^
        ((((⌊a⌋ : ℤ) + (Nat.log 2 m : ℤ) : ℤ) : ℝ) + 1 - (a : ℝ)) ≤ m) := by
      intro hle
      apply hc
      rw [pow2RatLe_iff]
      have hcast : ((((((⌊a⌋ : ℤ) + (Nat.log 2 m : ℤ) : ℤ) : ℚ) + 1) - a : ℚ) : ℝ)
          = (((⌊a⌋ : ℤ) + (Nat.log 2 m : ℤ) : ℤ) : ℝ) + 1 - (a : ℝ) := by
        push_cast
        ring
      rw [hcast]
      exact hle
    have h3 : Real.logb 2 m <
        (((⌊a⌋ : ℤ) + (Nat.log 2 m : ℤ) : ℤ) : ℝ) + 1 - (a : ℝ) := by
      by_contra hcon
      push_neg at hcon
      apply hc'
      have hiff := Real.rpow_le_rpow_left_iff (x := (2:ℝ))
        (y := (((⌊a⌋ : ℤ) + (Nat.log 2 m : ℤ) : ℤ) : ℝ) + 1 - (a : ℝ))
        (z := Real.logb 2 m) one_lt_two
      rw [Real.rpow_logb two_pos (by norm_num) hmr] at hiff
      exact hiff.mpr hcon
    symm
    rw [Int.floor_eq_iff]
    constructor
    · push_cast
      push_cast at hfl hL1
      linarith
    · push_cast
      push_cast at h3
      linarith

/-- The C cast `(int)` truncates toward zero, the spec's formula floors;
after clamping to a lower bound of 1 the two agree (they can only differ
on negative values, and those clamp to 1 either way). -/
lemma c_clamp_trunc_eq_floor (a : ℚ) (m : ℕ) (M : ℤ) :
    c_clamp (truncAddLog2 a m) 1 M = c_clamp (floorAddLog2 a m) 1 M := by
  unfold truncAddLog2 c_clamp
  dsimp only
  split_ifs <;> omega

lemma c_clamp_le_c_clamp (v v' lo hi : ℤ) (hlohi : lo ≤ hi) (h : v ≤ v') :
    c_clamp v lo hi ≤ c_clamp v' lo hi := by
  unfold c_clamp
  split_ifs <;> omega

/-- C5: The bloom iteration count computed in `EEVEE_effects_init` equals
`clamp(⌊radius - 8 + log2 (min w h)⌋, 1, MAX_BLOOM_STEP)`; in particular
for a 1920×1080 viewport with radius 6 the count is 8 whenever
`MAX_BLOOM_STEP ≥ 8`. -/
theorem bloom_iteration_ct_formula (radius : ℚ) (w h : ℕ) (M : ℤ)
    (hw : 1 ≤ w) (hh : 1 ≤ h) :
    bloom_iteration_ct radius w h M =
      c_clamp ⌊(radius : ℝ) - 8 + Real.logb 2 ((min w h : ℕ) : ℝ)⌋ 1 M ∧
    (8 ≤ M → bloom_iteration_ct 6 1920 1080 M = 8) := by
  have hmin : 1 ≤ min w h := le_min hw hh
  constructor
  · rw [bloom_iteration_ct, c_clamp_trunc_eq_floor,
      floorAddLog2_eq _ _ hmin]
    congr 2
    push_cast
    ring
  · intro hM
    have hlog : Nat.log 2 1080 = 10 := by
      apply Nat.log_eq_of_pow_le_of_lt_pow <;> norm_num
    have hmin' : (min 1920 1080 : ℕ) = 1080 := by norm_num
    have hfloor : (⌊(6 - 8 : ℚ)⌋ : ℤ) = -2 := by
      rw [show (6 - 8 : ℚ) = ((-2 : ℤ) : ℚ) by norm_num, Int.floor_intCast]
    have harg : (((-2 + (10 : ℕ) : ℤ) : ℚ) + 1) - (6 - 8 : ℚ) = 11 := by
      norm_num
    have hple : pow2RatLe 11 1080 = false := by decide
    have htr : truncAddLog2 (6 - 8 : ℚ) 1080 = 8 := by
      unfold truncAddLog2 floorAddLog2
      rw [hlog, hfloor]
      dsimp only
      rw [harg, hple]
      norm_num
    unfold bloom_iteration_ct
    rw [hmin', htr]
    unfold c_clamp
    split_ifs <;> omega

/-- Witness for C5 with `MAX_BLOOM_STEP = 16` (its value in Blender)
at the spec's 1920×1080, radius-6 scenario. -/
theorem bloom_iteration_ct_formula_witness :
    (bloom_iteration_ct 6 1920 1080 16 =
      c_clamp ⌊(6 : ℚ) - 8 + Real.logb 2 ((min 1920 1080 : ℕ) : ℝ)⌋ 1 16 ∧
    ((8 : ℤ) ≤ 16 → bloom_iteration_ct 6 1920 1080 16 = 8)) ∧
    bloom_iteration_ct 6 1920 1080 16 = 8 := by
  have h := bloom_iteration_ct_formula 6 1920 1080 16
    (by norm_num) (by norm_num)
  exact ⟨h, h.2 (by norm_num)⟩

/-- C6: The bloom iteration count is monotone non-decreasing in the
radius and in the minor viewport dimension (hence in its log2), and lies
in `[1, MAX_BLOOM_STEP]` whenever `MAX_BLOOM_STEP ≥ 1`. -/
theorem bloom_iteration_ct_monotone (radius radius' : ℚ) (w h w' h' : ℕ)
    (M : ℤ) (hM : 1 ≤ M) (hm : 1 ≤ min w h) (hmm : min w h ≤ min w' h')
    (hr : radius ≤ radius') :
    bloom_iteration_ct radius w h M ≤ bloom_iteration_ct radius' w' h' M ∧
    (1 ≤ bloom_iteration_ct radius w h M ∧
      bloom_iteration_ct radius w h M ≤ M) := by
  constructor
  · have hm' : 1 ≤ min w' h' := le_trans hm hmm
    rw [bloom_iteration_ct, bloom_iteration_ct, c_clamp_trunc_eq_floor,
      c_clamp_trunc_eq_floor, floorAddLog2_eq _ _ hm,
      floorAddLog2_eq _ _ hm']
    apply c_clamp_le_c_clamp _ _ _ _ hM
    apply Int.floor_le_floor
    have hlog : Real.logb 2 ((min w h : ℕ) : ℝ) ≤
        Real.logb 2 ((min w' h' : ℕ) : ℝ) :=
      Real.logb_le_logb_of_le one_lt_two
        (by exact_mod_cast Nat.lt_of_lt_of_le Nat.zero_lt_one hm)
        (by exact_mod_cast hmm)
    have hrr : ((radius - 8 : ℚ) : ℝ) ≤ ((radius' - 8 : ℚ) : ℝ) := by
      exact_mod_cast sub_le_sub_right hr 8
    exact add_le_add hrr hlog
  · unfold bloom_iteration_ct c_clamp
    split_ifs <;> omega

/-- Witness for C6: radius 5 ≤ 6 and 800×600 ≤ 1920×1080 (minor
dimension 600 ≤ 1080), with `MAX_BLOOM_STEP = 16`. -/
theorem bloom_iteration_ct_monotone_witness :
    bloom_iteration_ct 5 800 600 16 ≤ bloom_iteration_ct 6 1920 1080 16 ∧
    (1 ≤ bloom_iteration_ct 5 800 600 16 ∧
      bloom_iteration_ct 5 800 600 16 ≤ 16) :=
  bloom_iteration_ct_monotone 5 6 800 600 1920 1080 16
    (by norm_num) (by norm_num) (by norm_num) (by norm_num)

end EEVEE
